import Mathlib

/-
  Verification development for the cursor-deepseek proxy repository.

  Shallow embedding of the wire-format translation layer:
  message/tool converters, tool-choice narrowing, unary response
  translation, error forwarding, and the streaming relays.

  Each namespace mirrors one Go package or file of the repository.
  Machine integers are modeled as Nat/Int; JSON values decoded into
  a Go interface value are modeled by the JsonValue inductive; code
  that can panic at runtime (nil-pointer dereference, failed type
  assertion) is modeled with Option, where none is the panic.
-/

/-- A decoded JSON value, as produced by encoding/json into a Go
interface value. Numbers are modeled as Int (no claim depends on
numeric JSON payloads); object fields are an association list with
last-wins lookup, matching the map produced by json.Unmarshal. -/
inductive JsonValue where
  | null : JsonValue
  | str (s : String) : JsonValue
  | num (n : Int) : JsonValue
  | bool (b : Bool) : JsonValue
  | arr (elems : List JsonValue) : JsonValue
  | obj (fields : List (String × JsonValue)) : JsonValue

/-- Lookup of a key in a decoded JSON object, mirroring Go map
indexing after json.Unmarshal (duplicate keys: last one wins). -/
def lookupField (fields : List (String × JsonValue)) (k : String) : Option JsonValue :=
  (fields.reverse.find? (fun p => p.1 = k)).map (fun p => p.2)

/-- Mirrors the Go interface comparison of a map entry against a
string literal, as in choiceMap with key type compared to the literal:
true exactly when the value is a JSON string equal to s. -/
def isTypeString (v : Option JsonValue) (s : String) : Bool :=
  match v with
  | some (.str t) => t = s
  | _ => false

/- ================================================================
   Package v1, early draft of the OpenAI-compatible wire types
   (src/unnamed/part_008, first section): Message content is a plain
   string. These are the types proxy.go compiles against.
   ================================================================ -/

namespace openaidraft

structure ToolCallFunction where
  name : String
  arguments : String
  deriving DecidableEq, Repr

structure ToolCall where
  id : String
  type : String
  function : ToolCallFunction
  deriving DecidableEq, Repr

structure Message where
  role : String
  content : String
  toolCalls : List ToolCall := []
  toolCallID : String := ""
  name : String := ""

structure Function where
  name : String
  description : String
  parameters : JsonValue

structure Tool where
  type : String
  function : Function

structure ChatCompletionRequest where
  model : String
  messages : List Message
  stream : Bool
  temperature : Option Rat := none
  maxTokens : Option Int := none
  functions : List Function := []
  tools : List Tool := []
  toolChoice : JsonValue := .null

structure Usage where
  promptTokens : Int
  completionTokens : Int
  totalTokens : Int

structure Choice where
  index : Int
  message : Message
  finishReason : String

structure ChatCompletionResponse where
  id : String
  object : String
  created : Int
  model : String
  choices : List Choice
  usage : Usage

end openaidraft

/- ================================================================
   Package v1 of internal/api/deepseek: the DeepSeek-shaped wire
   types. The declaring file is not under src (only its callers
   are); the field layout below is reconstructed from every
   construction site in src (proxy.go, deepseek backend).
   ================================================================ -/

namespace deepseekv1

structure ToolCallFunction where
  name : String
  arguments : String
  deriving DecidableEq, Repr

structure ToolCall where
  id : String
  type : String
  function : ToolCallFunction
  deriving DecidableEq, Repr

structure Message where
  role : String
  content : String
  toolCalls : List ToolCall := []
  toolCallID : String := ""
  name : String := ""
  deriving DecidableEq, Repr

structure Function where
  name : String
  description : String
  parameters : JsonValue

structure Tool where
  type : String
  function : Function

/-- Modelled from the spec: the deepseek v1 Request type from
internal/api/deepseek/v1 is not under src. Per the spec, an absent
tool-choice preference must not be serialized into the outgoing
request at all; the field is therefore modeled as an Option, where
none means the serialized request omits tool_choice (matching a Go
string field tagged omitempty that is never assigned the empty
string). The remaining fields follow the construction sites in src. -/
structure Request where
  model : String
  messages : List Message
  stream : Bool
  temperature : Rat := 0
  maxTokens : Int := 0
  tools : List Tool := []
  toolChoice : Option String := none

structure Usage where
  promptTokens : Int
  completionTokens : Int
  totalTokens : Int

structure Choice where
  index : Int
  message : Message
  finishReason : String

structure Response where
  id : String
  created : Int
  choices : List Choice
  usage : Usage

end deepseekv1

/- ================================================================
   Package v1 of internal/api/openai (src/internal/api/openai/v1/
   types.go): the current OpenAI-compatible wire types with the
   dual content representation.
   ================================================================ -/

namespace openaiv1

structure ToolCallFunction where
  name : String
  arguments : String
  deriving DecidableEq, Repr

structure ToolCall where
  id : String
  type : String
  function : ToolCallFunction
  deriving DecidableEq, Repr

structure ContentPart_Text where
  type : String
  text : String
  deriving DecidableEq, Repr

/-- The isContent union of types.go. A Content_Array entry is an
Option: some is a ContentPart_Text value, none is a nil interface
slot, which is what UnmarshalJSON leaves behind for a content part
of an unknown type. -/
inductive Content where
  | Content_String (content : String) : Content
  | Content_Array (parts : List (Option ContentPart_Text)) : Content

/-- Message of types.go. The content field is an Option because the
Go interface field can be nil (content absent from the JSON). -/
structure Message where
  role : String
  content : Option Content := none
  toolCalls : List ToolCall := []
  toolCallID : String := ""
  name : String := ""

/-- GetContentString of types.go: the scalar content, or the empty
string when content is absent or the array variant. -/
def GetContentString (m : Message) : String :=
  match m.content with
  | some (.Content_String c) => c
  | _ => ""

/-- One content part of the UnmarshalJSON loop over a content array
(types.go lines 216 to 229). A part that is a JSON object with type
text yields its ContentPart_Text; an object of any other type is
logged and leaves the slot as a nil interface (inner none); a text
part whose text field is not a string makes the Go type assertion
panic (outer none). Any non-object part is logged and leaves the
slot nil. -/
def unmarshalContentPart (v : JsonValue) : Option (Option ContentPart_Text) :=
  match v with
  | .obj fields =>
      if isTypeString (lookupField fields "type") "text" then
        match lookupField fields "text" with
        | some (.str t) => some (some { type := "text", text := t })
        | _ => none
      else
        some none
  | _ => some none

def unmarshalContentParts : List JsonValue → Option (List (Option ContentPart_Text))
  | [] => some []
  | v :: rest =>
      match unmarshalContentPart v, unmarshalContentParts rest with
      | some p, some ps => some (p :: ps)
      | _, _ => none

/-- The content handling of Message.UnmarshalJSON (types.go lines
212 to 233): a JSON string becomes Content_String, a JSON array
becomes Content_Array with one slot per element, any other JSON
value leaves the content field nil. The outer Option is a panic
during the loop. -/
def unmarshalContent (v : JsonValue) : Option (Option Content) :=
  match v with
  | .str s => some (some (.Content_String s))
  | .arr elems => (unmarshalContentParts elems).map (fun ps => some (.Content_Array ps))
  | _ => some none

structure Usage where
  promptTokens : Int := 0
  completionTokens : Int := 0
  totalTokens : Int := 0

structure Delta where
  role : String
  content : Option Content := none

structure StreamChoice where
  index : Int
  delta : Delta
  finishReason : String := ""

structure ChatCompletionStreamResponse where
  id : String
  object : String
  created : Nat
  model : String
  choices : List StreamChoice
  usage : Usage := {}

end openaiv1

/- ================================================================
   Package v1 of internal/api/ollama (src/internal/api/ollama/v1/
   types.go).
   ================================================================ -/

namespace ollamav1

structure Message where
  role : String
  content : String
  deriving DecidableEq, Repr

structure Request where
  model : String
  messages : List Message
  stream : Bool
  temperature : Rat := 0
  maxTokens : Int := 0

structure Response where
  model : String
  createdAt : String
  message : Message
  done : Bool
  deriving DecidableEq, Repr

end ollamav1

/- ================================================================
   proxy.go (package main): the standalone DeepSeek proxy.
   ================================================================ -/

namespace proxy

/-- Constant deepseekChatModel of proxy.go line 28. -/
def deepseekChatModel : String := "deepseek-chat"

/-- convertToolChoice of proxy.go lines 89 to 110 (identical copies
live in the deepseek backend converters and proxy-openrouter.go).
The interface argument is the decoded tool_choice JSON value; null
models both an absent field and JSON null. -/
def convertToolChoice (choice : JsonValue) : String :=
  match choice with
  | .str s => if s = "auto" then "auto" else if s = "none" then "none" else ""
  | .obj fields => if isTypeString (lookupField fields "type") "function" then "auto" else ""
  | _ => ""

/-- The per-message body of convertMessages in proxy.go lines
112 to 148: content is the plain string of the draft Message type,
tool calls are retagged with call type function only on assistant
messages, and the legacy function role is rewritten to tool. -/
def convertMessage (msg : openaidraft.Message) : deepseekv1.Message :=
  { role := if msg.role = "function" then "tool" else msg.role
    content := msg.content
    toolCallID := msg.toolCallID
    name := msg.name
    toolCalls :=
      if msg.role = "assistant" ∧ 0 < msg.toolCalls.length then
        msg.toolCalls.map (fun tc =>
          { id := tc.id, type := "function",
            function := { name := tc.function.name, arguments := tc.function.arguments } })
      else [] }

/-- convertMessages of proxy.go lines 112 to 159. -/
def convertMessages (messages : List openaidraft.Message) : List deepseekv1.Message :=
  messages.map convertMessage

/-- convertTools of proxy.go lines 418 to 431. -/
def convertTools (tools : List openaidraft.Tool) : List deepseekv1.Tool :=
  tools.map (fun tool =>
    { type := tool.type
      function := { name := tool.function.name, description := tool.function.description,
                    parameters := tool.function.parameters } })

/-- The pure request-building core of proxyHandler, proxy.go lines
277 to 324: the outgoing model is the deepseekChatModel constant,
messages and tools are converted, and tool_choice is assigned only
when tools or legacy functions are present and the narrowing yields
a non-empty string. -/
def buildDeepseekRequest (chatReq : openaidraft.ChatCompletionRequest) : deepseekv1.Request :=
  let base : deepseekv1.Request :=
    { model := deepseekChatModel
      messages := convertMessages chatReq.messages
      stream := chatReq.stream
      temperature := chatReq.temperature.getD 0
      maxTokens := chatReq.maxTokens.getD 0 }
  if 0 < chatReq.tools.length then
    { base with
      tools := convertTools chatReq.tools
      toolChoice :=
        if convertToolChoice chatReq.toolChoice ≠ "" then some (convertToolChoice chatReq.toolChoice)
        else none }
  else if 0 < chatReq.functions.length then
    { base with
      tools := chatReq.functions.map (fun fn =>
        { type := "function"
          function := { name := fn.name, description := fn.description, parameters := fn.parameters } })
      toolChoice :=
        if convertToolChoice chatReq.toolChoice ≠ "" then some (convertToolChoice chatReq.toolChoice)
        else none }
  else base

/-- convertResponseToolCalls of proxy.go lines 588 to 607: a tool
call whose function name is empty is dropped with a warning, every
other one is re-wrapped with the same id, type, function name and
arguments, in order. -/
def convertResponseToolCalls : List deepseekv1.ToolCall → List openaidraft.ToolCall
  | [] => []
  | tc :: rest =>
      if tc.function.name = "" then convertResponseToolCalls rest
      else
        { id := tc.id, type := tc.type,
          function := { name := tc.function.name, arguments := tc.function.arguments } }
          :: convertResponseToolCalls rest

/-- convertResponseMessage of proxy.go lines 578 to 586. -/
def convertResponseMessage (message : deepseekv1.Message) : openaidraft.Message :=
  { role := message.role
    content := message.content
    toolCalls := convertResponseToolCalls message.toolCalls
    toolCallID := message.toolCallID
    name := message.name }

/-- convertResponseChoices of proxy.go lines 566 to 576. -/
def convertResponseChoices (choices : List deepseekv1.Choice) : List openaidraft.Choice :=
  choices.map (fun choice =>
    { index := choice.index
      message := convertResponseMessage choice.message
      finishReason := choice.finishReason })

/-- The pure translation core of handleRegularResponse, proxy.go
lines 536 to 547: the envelope is rebuilt with the originally
requested model name. -/
def convertRegularResponse (originalModel : String) (deepseekResp : deepseekv1.Response) :
    openaidraft.ChatCompletionResponse :=
  { id := deepseekResp.id
    object := "chat.completion"
    created := deepseekResp.created
    model := originalModel
    choices := convertResponseChoices deepseekResp.choices
    usage := { promptTokens := deepseekResp.usage.promptTokens
               completionTokens := deepseekResp.usage.completionTokens
               totalTokens := deepseekResp.usage.totalTokens } }

/-- The request and response model fields as proxyHandler wires them
(proxy.go lines 277 to 289 and 415): the original model name is read
before the request is rewritten and passed to the response
translation. -/
def proxyHandlerCore (chatReq : openaidraft.ChatCompletionRequest)
    (deepseekResp : deepseekv1.Response) :
    deepseekv1.Request × openaidraft.ChatCompletionResponse :=
  let originalModel := chatReq.model
  (buildDeepseekRequest chatReq, convertRegularResponse originalModel deepseekResp)

/-- Response headers modeled as a map from canonical header name to
values, none meaning the header is absent. -/
def Headers : Type := String → Option (List String)

structure ErrorForwardResult where
  status : Nat
  headers : Headers
  body : String

/-- The upstream-error branch of proxyHandler, proxy.go lines 388
to 406 (the same lines appear in deepseekBackend.HandleChatCompletions,
deepseek.go lines 207 to 225): the upstream body bytes are read
without decompression and written verbatim with the upstream status;
every upstream header is copied into the response header map
(overwriting on collision with headers already set, such as the CORS
headers), and Content-Type is then set to application/json. -/
def forwardErrorResponse (status : Nat) (body : String)
    (preHeaders upstreamHeaders : Headers) : ErrorForwardResult :=
  { status := status
    body := body
    headers := fun k =>
      if k = "Content-Type" then some ["application/json"]
      else
        match upstreamHeaders k with
        | some vs => some vs
        | none => preHeaders k }

/-- The skip list of copyHeaders, proxy.go lines 609 to 625. It is
applied when copying inbound request headers onto the upstream
request, not on the error-forwarding path above. -/
def skipHeaders : List String :=
  ["Content-Length", "Content-Encoding", "Transfer-Encoding", "Connection"]

end proxy

/- ================================================================
   The deepseek backend converters (src/unnamed/part_008, third
   section, package deepseek of internal/backend/deepseek):
   convertMessages flattens the typed content union.
   ================================================================ -/

namespace dsbackend

/-- The flattening loop of convertMessages (part_008 lines 249 to
256): for index i over the content array, the loop reads
GetContentPartTextAtIndex of i and dereferences its Text field, then
appends a separator and the text when the text is non-empty. A nil
slot (a content part of unknown type after unmarshalling) makes
GetContentPartTextAtIndex return a nil pointer whose dereference
panics; the panic is the none result. -/
def flattenLoop : List (Option openaiv1.ContentPart_Text) → String → Option String
  | [], acc => some acc
  | none :: _, _ => none
  | some p :: rest, acc => flattenLoop rest (if p.text ≠ "" then acc ++ "; " ++ p.text else acc)

/-- The content switch of convertMessages (part_008 lines 246 to
257): scalar content passes through, array content is flattened,
absent content leaves the empty string. -/
def contentOfMessage (msg : openaiv1.Message) : Option String :=
  match msg.content with
  | some (.Content_String c) => some c
  | some (.Content_Array parts) => flattenLoop parts ""
  | none => some ""

/-- The tool-call retagging of convertMessages (part_008 lines 269
to 281): id, name and arguments are preserved and the call type is
set to function. -/
def retagToolCall (tc : openaiv1.ToolCall) : deepseekv1.ToolCall :=
  { id := tc.id, type := "function",
    function := { name := tc.function.name, arguments := tc.function.arguments } }

/-- The per-message body of convertMessages (part_008 lines 240 to
290). none models the panic of the flattening loop on a nil content
part slot. -/
def convertMessage (msg : openaiv1.Message) : Option deepseekv1.Message :=
  (contentOfMessage msg).map (fun content =>
    { role := if msg.role = "function" then "tool" else msg.role
      content := content
      toolCallID := msg.toolCallID
      name := msg.name
      toolCalls :=
        if msg.role = "assistant" ∧ 0 < msg.toolCalls.length then
          msg.toolCalls.map retagToolCall
        else [] })

/-- convertMessages (part_008 lines 240 to 301); a panic on any
message aborts the whole conversion. -/
def convertMessages : List openaiv1.Message → Option (List deepseekv1.Message)
  | [] => some []
  | m :: rest =>
      match convertMessage m, convertMessages rest with
      | some d, some ds => some (d :: ds)
      | _, _ => none

/-- convertResponseToolCalls (part_008 lines 327 to 347), identical
logic to the proxy.go copy but targeting the union-content types. -/
def convertResponseToolCalls : List deepseekv1.ToolCall → List openaiv1.ToolCall
  | [] => []
  | tc :: rest =>
      if tc.function.name = "" then convertResponseToolCalls rest
      else
        { id := tc.id, type := tc.type,
          function := { name := tc.function.name, arguments := tc.function.arguments } }
          :: convertResponseToolCalls rest

/-- convertResponseMessage (part_008 lines 315 to 325): content is
re-wrapped as the scalar string variant. -/
def convertResponseMessage (message : deepseekv1.Message) : openaiv1.Message :=
  { role := message.role
    content := some (.Content_String message.content)
    toolCalls := convertResponseToolCalls message.toolCalls
    toolCallID := message.toolCallID
    name := message.name }

/-- Round trip: OpenAI messages to provider shape and back through
the response-message converter. -/
def roundTripMessages (msgs : List openaiv1.Message) : Option (List openaiv1.Message) :=
  (convertMessages msgs).map (List.map convertResponseMessage)

/-- The observation the round-trip claim is about: role, scalar
content text, and the tool-call identifiers of a message. -/
def messageSignature (m : openaiv1.Message) : String × String × List String :=
  (m.role, openaiv1.GetContentString m, m.toolCalls.map (fun tc => tc.id))

/-- Decidable check that a message carries the scalar content
variant. -/
def isScalarContent : Option openaiv1.Content → Bool
  | some (.Content_String _) => true
  | _ => false

/-- Declarative flattening following the amended claim wording: each
part with non-empty text contributes the separator followed by its
text, concatenated in order. -/
def flattenSpec : List openaiv1.ContentPart_Text → String
  | [] => ""
  | p :: rest => (if p.text ≠ "" then "; " ++ p.text else "") ++ flattenSpec rest

end dsbackend

/- ================================================================
   internal/backend/deepseek/deepseek.go: the Backend-contract
   deepseek adapter.
   ================================================================ -/

namespace deepseekbackend

structure Options where
  endpoint : String
  model : String
  apiKey : String

structure deepseekBackend where
  endpoint : String
  model : String
  apikey : String

/-- NewDeepseekBackend of deepseek.go lines 35 to 40: the struct
literal sets only endpoint and model, so the apikey field keeps the
Go zero value, the empty string. -/
def NewDeepseekBackend (opts : Options) : deepseekBackend :=
  { endpoint := opts.endpoint
    model := opts.model
    apikey := "" }

/-- The Authorization header value set by HandleChatCompletions,
deepseek.go line 173. -/
def authHeaderValue (b : deepseekBackend) : String :=
  "Bearer " ++ b.apikey

end deepseekbackend

/- ================================================================
   The ollama streaming relays.
   ================================================================ -/

/-- The Go time format with layout 20060102150405 renders the wall
clock at second resolution; it is modeled as the decimal rendering
of the second count, which is likewise injective on seconds. -/
def formatTimestamp (t : Nat) : String := toString t

namespace ollamabackend

/-- handleStreamingResponse of src/unnamed/part_009 lines 142 to 211
(the same logic appears in src/unnamed/part_010 lines 272 to 334).
The upstream stream is a list of iterations, each carrying the wall
clock second observed by time.Now at that iteration and the parse
result of the line (none is a line json.Unmarshal rejects, which is
logged and skipped). Each parsed chunk is immediately written as one
SSE event whose id embeds the current timestamp and whose model is
the originally requested model; a done chunk gets finish reason stop
and terminates the relay; EOF terminates the relay. -/
def handleStreamingResponse (originalModel : String) :
    List (Nat × Option ollamav1.Response) → List openaiv1.ChatCompletionStreamResponse
  | [] => []
  | (_, none) :: rest => handleStreamingResponse originalModel rest
  | (t, some ollamaResp) :: rest =>
      let ev : openaiv1.ChatCompletionStreamResponse :=
        { id := "chatcmpl-" ++ formatTimestamp t
          object := "chat.completion.chunk"
          created := t
          model := originalModel
          choices := [
            { index := 0
              delta := { role := "assistant",
                         content := some (.Content_String ollamaResp.message.content) }
              finishReason := if ollamaResp.done then "stop" else "" } ] }
      if ollamaResp.done then [ev] else ev :: handleStreamingResponse originalModel rest

end ollamabackend

namespace respgo

/-- Modelled from the spec: the StreamingResponse chunk envelope of
package backend is not under src (only its construction in
internal/backend/ollama/response.go is); fields follow that
construction site and the spec description of the chunk shape. -/
structure Delta where
  role : String
  content : String
  deriving DecidableEq, Repr

structure StreamChoice where
  index : Int
  delta : Delta
  finishReason : String
  deriving DecidableEq, Repr

structure StreamingResponse where
  id : String
  object : String
  created : Nat
  model : String
  choices : List StreamChoice
  deriving DecidableEq, Repr

/-- Backend.handleStreamingResponse of src/internal/backend/ollama/
response.go lines 18 to 107. For every parsed chunk the loop builds
the OpenAI-format chunk, but WriteJSON is reached only inside the
done branch: non-done chunks are dropped, a done chunk is written
with finish reason stop and terminates the relay, an unparseable
line terminates the relay with an error, EOF terminates it. The
model argument is the one the caller passes (HandleChatCompletion at
response-go call sites passes the configured default model). -/
def handleStreamingResponse (model : String) :
    List (Nat × Option ollamav1.Response) → List StreamingResponse
  | [] => []
  | (_, none) :: _ => []
  | (t, some ollamaResp) :: rest =>
      if ollamaResp.done then
        [ { id := "chatcmpl-" ++ formatTimestamp t
            object := "chat.completion.chunk"
            created := t
            model := model
            choices := [
              { index := 0
                delta := { role := "assistant", content := ollamaResp.message.content }
                finishReason := "stop" } ] } ]
      else handleStreamingResponse model rest

end respgo

/- ================================================================
   Concrete sample inputs used by witnesses and counterexamples.
   ================================================================ -/

/-- The scenario tool choice: a structured function selection. -/
def toolChoiceFunctionObject : JsonValue :=
  .obj [("type", .str "function"), ("function", .obj [("name", .str "foo")])]

/-- A request with no tools and a null tool choice. -/
def sampleReqNoTools : openaidraft.ChatCompletionRequest :=
  { model := "gpt-4o"
    messages := [{ role := "user", content := "hi" }]
    stream := false }

/-- A request with one tool and the structured function selection. -/
def sampleReqWithTool : openaidraft.ChatCompletionRequest :=
  { model := "gpt-4o"
    messages := [{ role := "user", content := "hi" }]
    stream := false
    tools := [{ type := "function",
                function := { name := "foo", description := "d", parameters := .null } }]
    toolChoice := toolChoiceFunctionObject }

/-- First streamed ollama chunk, not done. -/
def ollamaChunk1 : ollamav1.Response :=
  { model := "llama2", createdAt := "t1",
    message := { role := "assistant", content := "Hel" }, done := false }

/-- Second streamed ollama chunk, not done. -/
def ollamaChunk2 : ollamav1.Response :=
  { model := "llama2", createdAt := "t2",
    message := { role := "assistant", content := "lo" }, done := false }

/-- Final streamed ollama chunk, done. -/
def ollamaChunk3 : ollamav1.Response :=
  { model := "llama2", createdAt := "t3",
    message := { role := "assistant", content := "" }, done := true }

/-- A three-chunk upstream stream with done false, false, true. -/
def ollamaStream3 : List (Nat × Option ollamav1.Response) :=
  [(1, some ollamaChunk1), (1, some ollamaChunk2), (2, some ollamaChunk3)]

/-- A two-chunk stream whose chunks are observed in different
wall-clock seconds. -/
def ollamaStreamTwoSeconds : List (Nat × Option ollamav1.Response) :=
  [(5, some ollamaChunk1), (6, some ollamaChunk3)]

/-- The first event the part_009 relay emits on
ollamaStreamTwoSeconds. -/
def streamEvFirst : openaiv1.ChatCompletionStreamResponse :=
  { id := "chatcmpl-5"
    object := "chat.completion.chunk"
    created := 5
    model := "gpt-4o"
    choices := [
      { index := 0
        delta := { role := "assistant", content := some (.Content_String "Hel") }
        finishReason := "" } ] }

/-- Header state before the error branch runs (the handler has
already set the CORS headers; one is included here). -/
def corsPreHeaders : proxy.Headers := fun k =>
  if k = "Access-Control-Allow-Origin" then some ["*"] else none

/-- Upstream 429 response headers carrying every transport-only
header from the spec strip list. -/
def upstream429Headers : proxy.Headers := fun k =>
  if k = "Content-Length" then some ["21"]
  else if k = "Content-Encoding" then some ["gzip"]
  else if k = "Transfer-Encoding" then some ["chunked"]
  else if k = "Connection" then some ["keep-alive"]
  else none

/-- A scalar-content user message. -/
def sampleUserMsg : openaiv1.Message :=
  { role := "user", content := some (.Content_String "hi") }

/-- A scalar-content assistant message with one tool call. -/
def sampleAssistantMsg : openaiv1.Message :=
  { role := "assistant", content := some (.Content_String "ok"),
    toolCalls := [{ id := "call1", type := "function",
                    function := { name := "f", arguments := "args" } }] }

/- ================================================================
   Helper lemmas (shared; not tied to a single claim).
   ================================================================ -/

/-- The flattening loop on an all-text array equals the accumulator
followed by the declarative flattening. -/
theorem flattenLoop_eq_spec (parts : List openaiv1.ContentPart_Text) (acc : String) :
    dsbackend.flattenLoop (parts.map some) acc = some (acc ++ dsbackend.flattenSpec parts) := by
  induction parts generalizing acc with
  | nil => simp [dsbackend.flattenLoop, dsbackend.flattenSpec, String.append_empty]
  | cons p rest ih =>
      by_cases h : p.text = ""
      · simp [dsbackend.flattenLoop, dsbackend.flattenSpec, h, ih]
      · simp [dsbackend.flattenLoop, dsbackend.flattenSpec, h, ih, String.append_assoc]

/-- Dropping empty-name tool calls after retagging preserves the
identifier list when every name is non-empty. -/
theorem convertResponseToolCalls_retag_ids (tcs : List openaiv1.ToolCall)
    (h : ∀ tc ∈ tcs, tc.function.name ≠ "") :
    (dsbackend.convertResponseToolCalls (tcs.map dsbackend.retagToolCall)).map (fun tc => tc.id) =
      tcs.map (fun tc => tc.id) := by
  induction tcs with
  | nil => rfl
  | cons tc rest ih =>
      have hname : tc.function.name ≠ "" := h tc (List.mem_cons_self tc rest)
      have hrest : ∀ t ∈ rest, t.function.name ≠ "" := fun t ht => h t (List.mem_cons_of_mem tc ht)
      simp [dsbackend.convertResponseToolCalls, dsbackend.retagToolCall, hname, ih hrest]

/-- One valid scalar-content message survives the round trip with
its signature intact. -/
theorem roundTrip_message_signature (m : openaiv1.Message)
    (h1 : dsbackend.isScalarContent m.content = true) (h2 : m.role ≠ "function")
    (h3 : 0 < m.toolCalls.length → m.role = "assistant")
    (h4 : ∀ tc ∈ m.toolCalls, tc.function.name ≠ "") :
    ∃ d, dsbackend.convertMessage m = some d ∧
      dsbackend.messageSignature (dsbackend.convertResponseMessage d) =
        dsbackend.messageSignature m := by
  obtain ⟨s, hs⟩ : ∃ s, m.content = some (.Content_String s) := by
    unfold dsbackend.isScalarContent at h1
    match hc : m.content with
    | some (.Content_String c) => exact ⟨c, rfl⟩
    | some (.Content_Array _) => rw [hc] at h1; cases h1
    | none => rw [hc] at h1; cases h1
  have hcontent : dsbackend.contentOfMessage m = some s := by
    unfold dsbackend.contentOfMessage; rw [hs]
  refine ⟨_, by unfold dsbackend.convertMessage; rw [hcontent]; rfl, ?_⟩
  unfold dsbackend.convertResponseMessage dsbackend.messageSignature openaiv1.GetContentString
  simp only [hs, Prod.mk.injEq]
  refine ⟨by simp [h2], by simp, ?_⟩
  by_cases hbranch : m.role = "assistant" ∧ 0 < m.toolCalls.length
  · simp only [hbranch, if_pos]
    simpa using convertResponseToolCalls_retag_ids m.toolCalls h4
  · have hempty : m.toolCalls = [] := by
      by_contra hne
      have hlen : 0 < m.toolCalls.length := List.length_pos.mpr hne
      exact hbranch ⟨h3 hlen, hlen⟩
    simp [hbranch, hempty, dsbackend.convertResponseToolCalls]

/- ================================================================
   Claim theorems.
   ================================================================ -/

/-- Claim C1: for every chat completion request handled by the
DeepSeek-shaped proxy (proxy.go), the outgoing provider request has
the configured internal model deepseek-chat, and the translated
non-streaming response carries the originally requested model name. -/
theorem C1_model_mapping (chatReq : openaidraft.ChatCompletionRequest)
    (deepseekResp : deepseekv1.Response) :
    proxy.deepseekChatModel = "deepseek-chat" ∧
    (proxy.proxyHandlerCore chatReq deepseekResp).1.model = "deepseek-chat" ∧
    (proxy.proxyHandlerCore chatReq deepseekResp).2.model = chatReq.model := by
  refine ⟨rfl, ?_, rfl⟩
  unfold proxy.proxyHandlerCore proxy.buildDeepseekRequest
  split <;> [rfl; split <;> rfl]

/-- Claim C2 counterexample: flattening the all-text content array
with parts a and b yields the string with a leading separator, not
the parts joined by the separator. -/
theorem C2_counterexample :
    dsbackend.convertMessage
      { role := "user",
        content := some (.Content_Array
          [some { type := "text", text := "a" }, some { type := "text", text := "b" }]) } =
      some { role := "user", content := "; a; b" } ∧
    ("; a; b" : String) ≠ "a; b" := ⟨rfl, by decide⟩

/-- Claim C2 (amended): flattening an array containing only text
parts produces, for each part with non-empty text in order, the
separator followed by that text, all concatenated (so parts a, b
yield the string semicolon-space a semicolon-space b); an array with
no parts, or only empty-text parts, yields the empty string, and an
all-text array never errors. -/
theorem C2_flattening (parts : List openaiv1.ContentPart_Text) :
    dsbackend.flattenLoop (parts.map some) "" = some (dsbackend.flattenSpec parts) := by
  simpa [String.empty_append] using flattenLoop_eq_spec parts ""

/-- Claim C3: evaluating the conversion pipeline at a content array
holding a non-text part. UnmarshalJSON skips the part with a warning
and leaves a nil slot, as the claim says; but convertMessages then
dereferences the nil pointer returned by GetContentPartTextAtIndex
and panics (the none result) instead of completing normally with the
remaining text flattened. -/
theorem C3_nontext_part_panics :
    openaiv1.unmarshalContent
      (.arr [ .obj [("type", .str "image_url"), ("image_url", .str "u")],
              .obj [("type", .str "text"), ("text", .str "hi")] ]) =
      some (some (.Content_Array [none, some { type := "text", text := "hi" }])) ∧
    dsbackend.convertMessages
      [ { role := "user",
          content := some (.Content_Array [none, some { type := "text", text := "hi" }]) } ] =
      none := ⟨rfl, rfl⟩

/-- Claim C4: converting provider tool calls to the OpenAI shape
drops exactly the entries with an empty function name and maps every
other entry, in order, to an entry with the same id, type, function
name and arguments. -/
theorem C4_tool_call_filter (toolCalls : List deepseekv1.ToolCall) :
    proxy.convertResponseToolCalls toolCalls =
      (toolCalls.filter (fun tc => tc.function.name != "")).map
        (fun tc => { id := tc.id, type := tc.type,
                     function := { name := tc.function.name,
                                   arguments := tc.function.arguments } }) := by
  induction toolCalls with
  | nil => rfl
  | cons tc rest ih =>
      by_cases h : tc.function.name = "" <;>
        simp [proxy.convertResponseToolCalls, List.filter_cons, h, ih]

/-- Claim C6: on an upstream stream of three chunks with done flags
false, false, true, the part_009 and part_010 relays emit three SSE
events with finish reason stop on the last and only the last; the
relay of internal/backend/ollama/response.go, run on the same
stream, emits exactly one event, because its write is reachable only
in the done branch. -/
theorem C6_stream_event_count :
    (ollamabackend.handleStreamingResponse "gpt-4o" ollamaStream3).length = 3 ∧
    ((ollamabackend.handleStreamingResponse "gpt-4o" ollamaStream3).map
        (fun ev => ev.choices.map (fun c => c.finishReason))) = [[""], [""], ["stop"]] ∧
    (respgo.handleStreamingResponse "llama2" ollamaStream3).length = 1 := ⟨rfl, rfl, rfl⟩

/-- Claim C10: NewDeepseekBackend discards the ApiKey option, so the
stored apikey field is the empty string and the Authorization header
sent upstream is the word Bearer followed by a space and nothing
else, regardless of the configured key. -/
theorem C10_apikey_discarded (opts : deepseekbackend.Options) :
    (deepseekbackend.NewDeepseekBackend opts).apikey = "" ∧
    deepseekbackend.authHeaderValue (deepseekbackend.NewDeepseekBackend opts) = "Bearer " :=
  ⟨rfl, rfl⟩

/-- Claim C5: tool-choice narrowing passes the literal strings auto
and none through, collapses any structured function-selection object
to auto, and yields the empty string for every other shape including
null; the built provider request then omits the tool_choice field
(none) whenever the narrowing yields the empty string, and never
carries the empty string. -/
theorem C5_tool_choice_narrowing :
    proxy.convertToolChoice (.str "auto") = "auto" ∧
    proxy.convertToolChoice (.str "none") = "none" ∧
    (∀ fields, isTypeString (lookupField fields "type") "function" = true →
        proxy.convertToolChoice (.obj fields) = "auto") ∧
    proxy.convertToolChoice .null = "" ∧
    (∀ s, s ≠ "auto" → s ≠ "none" → proxy.convertToolChoice (.str s) = "") ∧
    (∀ fields, isTypeString (lookupField fields "type") "function" = false →
        proxy.convertToolChoice (.obj fields) = "") ∧
    (∀ n, proxy.convertToolChoice (.num n) = "") ∧
    (∀ b, proxy.convertToolChoice (.bool b) = "") ∧
    (∀ xs, proxy.convertToolChoice (.arr xs) = "") ∧
    (∀ chatReq : openaidraft.ChatCompletionRequest,
        proxy.convertToolChoice chatReq.toolChoice = "" →
        (proxy.buildDeepseekRequest chatReq).toolChoice = none) ∧
    (∀ chatReq : openaidraft.ChatCompletionRequest,
        (proxy.buildDeepseekRequest chatReq).toolChoice ≠ some "") := by
  refine ⟨rfl, rfl, ?_, rfl, ?_, ?_, fun _ => rfl, fun _ => rfl, fun _ => rfl, ?_, ?_⟩
  · intro fields h; simp [proxy.convertToolChoice, h]
  · intro s h1 h2; simp [proxy.convertToolChoice, h1, h2]
  · intro fields h; simp [proxy.convertToolChoice, h]
  · intro chatReq h
    unfold proxy.buildDeepseekRequest
    split
    · simp [h]
    · split
      · simp [h]
      · rfl
  · intro chatReq
    unfold proxy.buildDeepseekRequest
    split
    · by_cases h : proxy.convertToolChoice chatReq.toolChoice = "" <;> simp [h]
    · split
      · by_cases h : proxy.convertToolChoice chatReq.toolChoice = "" <;> simp [h]
      · simp

/-- Claim C5 witness: the scenario structured selection collapses to
auto, and a request with a null tool choice omits the field. -/
theorem C5_tool_choice_witness :
    isTypeString (lookupField [("type", JsonValue.str "function"),
        ("function", JsonValue.obj [("name", JsonValue.str "foo")])] "type") "function" = true ∧
    proxy.convertToolChoice toolChoiceFunctionObject = "auto" ∧
    proxy.convertToolChoice sampleReqNoTools.toolChoice = "" ∧
    (proxy.buildDeepseekRequest sampleReqNoTools).toolChoice = none :=
  ⟨rfl,
   C5_tool_choice_narrowing.2.2.1 _ rfl,
   rfl,
   C5_tool_choice_narrowing.2.2.2.2.2.2.2.2.2.1 sampleReqNoTools rfl⟩

/-- Claim C7 counterexample: on a 429 upstream response carrying the
transport-only headers, the forwarded response still contains
Content-Length and Content-Encoding; they are in the strip list the
claim says is applied, but that list is only applied to outbound
request headers. -/
theorem C7_counterexample :
    (proxy.forwardErrorResponse 429 "rate limited" corsPreHeaders
        upstream429Headers).headers "Content-Length" = some ["21"] ∧
    (proxy.forwardErrorResponse 429 "rate limited" corsPreHeaders
        upstream429Headers).headers "Content-Encoding" = some ["gzip"] ∧
    "Content-Length" ∈ proxy.skipHeaders ∧ "Content-Encoding" ∈ proxy.skipHeaders :=
  ⟨rfl, rfl, by decide, by decide⟩

/-- Claim C7 (amended): for every upstream response with status at
least 400, the caller receives the upstream status and body bytes
verbatim with no translation; every upstream header is copied into
the forwarded response unchanged (no transport-header stripping),
except that Content-Type is then overwritten to application/json. -/
theorem C7_error_forwarding (status : Nat) (body : String)
    (pre up : proxy.Headers) (_hstatus : 400 ≤ status) :
    (proxy.forwardErrorResponse status body pre up).status = status ∧
    (proxy.forwardErrorResponse status body pre up).body = body ∧
    (proxy.forwardErrorResponse status body pre up).headers "Content-Type" =
      some ["application/json"] ∧
    ∀ k vs, k ≠ "Content-Type" → up k = some vs →
      (proxy.forwardErrorResponse status body pre up).headers k = some vs := by
  refine ⟨rfl, rfl, rfl, ?_⟩
  intro k vs hk hvs
  simp [proxy.forwardErrorResponse, hk, hvs]

/-- Claim C7 witness: instantiation at the 429 rate-limit scenario. -/
theorem C7_error_forwarding_witness :
    (400 ≤ 429) ∧
    (proxy.forwardErrorResponse 429 "rate limited" corsPreHeaders
        upstream429Headers).status = 429 ∧
    (proxy.forwardErrorResponse 429 "rate limited" corsPreHeaders
        upstream429Headers).body = "rate limited" ∧
    (proxy.forwardErrorResponse 429 "rate limited" corsPreHeaders
        upstream429Headers).headers "Transfer-Encoding" = some ["chunked"] :=
  ⟨by decide,
   (C7_error_forwarding 429 "rate limited" corsPreHeaders upstream429Headers (by decide)).1,
   (C7_error_forwarding 429 "rate limited" corsPreHeaders upstream429Headers (by decide)).2.1,
   (C7_error_forwarding 429 "rate limited" corsPreHeaders upstream429Headers
      (by decide)).2.2.2 "Transfer-Encoding" ["chunked"] (by decide) rfl⟩

/-- Claim C8 counterexample: a legacy function-role message with
scalar content comes back from the round trip with role tool, so the
role is not preserved. -/
theorem C8_counterexample :
    (dsbackend.roundTripMessages
        [{ role := "function", content := some (.Content_String "x") }]).map
      (List.map dsbackend.messageSignature) = some [("tool", "x", [])] ∧
    ("tool" : String) ≠ "function" := ⟨rfl, by decide⟩

/-- Claim C8 (amended): for every message list with scalar string
content in which no message uses the legacy function role, tool
calls appear only on assistant messages, and every tool call has a
non-empty function name, converting to provider shape and back
preserves each message role, content text and tool-call identifier
exactly. -/
theorem C8_round_trip (msgs : List openaiv1.Message)
    (h : ∀ m ∈ msgs, dsbackend.isScalarContent m.content = true ∧ m.role ≠ "function" ∧
         (0 < m.toolCalls.length → m.role = "assistant") ∧
         ∀ tc ∈ m.toolCalls, tc.function.name ≠ "") :
    (dsbackend.roundTripMessages msgs).map (List.map dsbackend.messageSignature) =
      some (msgs.map dsbackend.messageSignature) := by
  induction msgs with
  | nil => rfl
  | cons m rest ih =>
      obtain ⟨h1, h2, h3, h4⟩ := h m (List.mem_cons_self m rest)
      have hrest := ih (fun x hx => h x (List.mem_cons_of_mem m hx))
      obtain ⟨d, hd, hsig⟩ := roundTrip_message_signature m h1 h2 h3 h4
      unfold dsbackend.roundTripMessages at hrest ⊢
      unfold dsbackend.convertMessages
      rw [hd]
      match hds : dsbackend.convertMessages rest with
      | none => rw [hds] at hrest; cases hrest
      | some ds =>
          rw [hds] at hrest
          show (Option.map (List.map dsbackend.convertResponseMessage) (some (d :: ds))).map
              (List.map dsbackend.messageSignature) =
            some ((m :: rest).map dsbackend.messageSignature)
          simp only [Option.map_some', List.map_cons, Option.some.injEq,
            List.cons.injEq] at hrest ⊢
          exact ⟨hsig, hrest⟩

/-- Claim C8 witness: the round trip at a concrete two-message
conversation with a tool call. -/
theorem C8_round_trip_witness :
    (dsbackend.roundTripMessages [sampleUserMsg, sampleAssistantMsg]).map
        (List.map dsbackend.messageSignature) =
      some ([sampleUserMsg, sampleAssistantMsg].map dsbackend.messageSignature) :=
  C8_round_trip [sampleUserMsg, sampleAssistantMsg] (by decide)

/-- Claim C9 counterexample: a stream whose two chunks are observed
in different wall-clock seconds is relayed with two different
response ids, so the id is not stable for the lifetime of the
stream. -/
theorem C9_counterexample :
    ((ollamabackend.handleStreamingResponse "gpt-4o" ollamaStreamTwoSeconds).map
        (fun ev => ev.id)) = ["chatcmpl-5", "chatcmpl-6"] ∧
    ("chatcmpl-5" : String) ≠ "chatcmpl-6" := ⟨rfl, by decide⟩

/-- Claim C9 (amended): in the part_009 and part_010 streaming
relays every emitted chunk carries the originally requested model
name, and each chunk id is generated afresh from the wall-clock
second observed at that iteration (the chatcmpl prefix followed by
the formatted second), not once per stream, so ids of one stream
coincide only for chunks emitted within the same second. -/
theorem C9_chunk_model_and_id (model : String)
    (stream : List (Nat × Option ollamav1.Response)) :
    (ollamabackend.handleStreamingResponse model stream).map (fun ev => (ev.model, ev.id)) =
      (ollamabackend.handleStreamingResponse model stream).map
        (fun ev => (model, "chatcmpl-" ++ formatTimestamp ev.created)) := by
  induction stream with
  | nil => rfl
  | cons p rest ih =>
      obtain ⟨t, oc⟩ := p
      cases oc with
      | none => simpa [ollamabackend.handleStreamingResponse] using ih
      | some c =>
          by_cases h : c.done <;>
            simp [ollamabackend.handleStreamingResponse, h, ih]
